import Mathlib

/-!
Shallow embedding of the feature/label generation pipeline of the
fot-valuing-actions repository (notebook `tutorial2-generate-features.ipynb`).

Actions are SPADL rows.  Pandas `NaN` missingness is modelled with `Option`;
floating-point numbers are modelled with `Rat` (the pipeline only adds,
subtracts, compares and divides, so `Rat` is exact for every claim here).
-/

namespace FVA

/-- One SPADL action row, with the columns used by the feature/label pipeline
(the `features_to_delay` list of the notebook). -/
structure Action where
  game_id : Int
  period_id : Int
  time_seconds : Rat
  team_id : Int
  player_id : Int
  start_x : Rat
  start_y : Rat
  end_x : Rat
  end_y : Rat
  bodypart_id : Int
  type_id : Int
  result_id : Int
  type_name : String
  result_name : String
  bodypart_name : String
  deriving DecidableEq, Inhabited, Repr

/-- `PITCH_LENGTH = 105` from the notebook. -/
def PITCH_LENGTH : Rat := 105

/-- `PITCH_WIDTH = 68` from the notebook. -/
def PITCH_WIDTH : Rat := 68

/-- `GOAL_X = PITCH_LENGTH` from the notebook. -/
def GOAL_X : Rat := PITCH_LENGTH

/-- `GOAL_Y = PITCH_WIDTH / 2` from the notebook. -/
def GOAL_Y : Rat := PITCH_WIDTH / 2

/-- The angle-to-goal computation of the notebook:
`np.divide(diff_x, diff_y, out=np.zeros_like(diff_x), where=(diff_y != 0))`
with `diff_x = GOAL_X - x` and `diff_y = abs(GOAL_Y - y)`:
the quotient where the divisor is nonzero, and the `out` value `0` where
the divisor is zero. -/
def angle_to_goal (x y : Rat) : Rat :=
  if |GOAL_Y - y| ≠ 0 then (GOAL_X - x) / |GOAL_Y - y| else 0

/-! ## Windowing engine (`create_delayed_features`, notebook)

`df_actions[features_to_delay].shift(step)` moves every row down by `step`
positions and fills the first `step` rows with `NaN`; a missing slot is
modelled as `none`. -/

/-- Slot `s` of the window anchored at row `i`: the action at index `i - s`
when it exists, `none` otherwise (the `NaN` fill of `shift(step)`). -/
def delayedSlot (acts : List Action) (i s : Nat) : Option Action :=
  if s ≤ i then acts[i - s]? else none

/-- `create_delayed_features(df_actions, features_to_delay, delays)`:
one output row per action; row `i` holds slots `0 .. delays-1`, slot `s`
being the action at `i - s` or the missing sentinel. -/
def create_delayed_features (acts : List Action) (delays : Nat) :
    List (List (Option Action)) :=
  (List.range acts.length).map (fun i => (List.range delays).map (delayedSlot acts i))

/-! ## Same-team indicator and coordinate inversion -/

/-- `df_features['team_id-0'] == df_features['team_id-step']` for one row.
In pandas a comparison with `NaN` yields `False`, so a missing slot (on either
side) gives `false`. -/
def sameTeamSlot (slot0 slotS : Option Action) : Bool :=
  match slot0, slotS with
  | some a, some b => a.team_id == b.team_id
  | _, _ => false

/-- The coordinate update applied by `invert_coordinates` to a row whose
same-team indicator is false:
`start_x ↦ PITCH_LENGTH - start_x`, `start_y ↦ PITCH_WIDTH - start_y`,
and likewise for the end coordinates. -/
def flipCoordinates (a : Action) : Action :=
  { a with
    start_x := PITCH_LENGTH - a.start_x
    start_y := PITCH_WIDTH - a.start_y
    end_x := PITCH_LENGTH - a.end_x
    end_y := PITCH_WIDTH - a.end_y }

/-- `invert_coordinates(df_features, delays)` on one window row: every slot
`step ≥ 1` whose indicator `team-step` (recomputed here as `sameTeamSlot`)
is false has its four coordinates replaced by the flipped values; slot `0`
is left untouched.  A missing slot stays `none`: in the notebook,
`PITCH_LENGTH - NaN` is again `NaN`, which `Option.map` models. -/
def invert_coordinates (row : List (Option Action)) : List (Option Action) :=
  match row with
  | [] => []
  | slot0 :: rest =>
      slot0 :: rest.map (fun s => if sameTeamSlot slot0 s then s else s.map flipCoordinates)

/-! ## Elapsed match time (`add_time_played`, notebook) -/

/-- `time_played = time_seconds + (period_id >= 2)*(45*60)
+ (period_id >= 3)*(15*60) + (period_id == 4)*(15*60)`. -/
def time_played (a : Action) : Rat :=
  a.time_seconds
    + (if 2 ≤ a.period_id then (1 : Rat) else 0) * (45 * 60)
    + (if 3 ≤ a.period_id then (1 : Rat) else 0) * (15 * 60)
    + (if a.period_id == 4 then (1 : Rat) else 0) * (15 * 60)

/-! ## Action-type dummy encoding and the pipeline's column set -/

/-- `pd.get_dummies(df_actions['type_name'])` creates one indicator column per
type-name value OBSERVED in the input (deduplicated), named by that value. -/
def dummyColumns (acts : List Action) : List String :=
  (acts.map Action.type_name).dedup

/-- Entry of the dummy column named `v` at the row of action `a`:
`1` iff `a`'s type name equals the column's value. -/
def dummyValue (a : Action) (v : String) : Bool :=
  a.type_name == v

/-- The notebook's `features_to_delay` list: the columns kept (per slot) by
`create_delayed_features` inside `create_features_match`. -/
def features_to_delay : List String :=
  ["game_id", "period_id", "time_seconds", "team_id", "player_id",
   "start_x", "start_y", "end_x", "end_y", "bodypart_id",
   "type_id", "result_id", "type_name", "result_name", "bodypart_name",
   "time_played"]

/-- Column names produced by `create_delayed_features`: each `features_to_delay`
name suffixed with `-step` for `step = 0 .. delays-1`. -/
def delayedFeatureColumns (delays : Nat) : List String :=
  (List.range delays).flatMap (fun s => features_to_delay.map (fun c => c ++ "-" ++ toString s))

/-- Columns added by `add_same_team`: `team-step` for `step = 1 .. delays-1`. -/
def teamColumns (delays : Nat) : List String :=
  (List.range (delays - 1)).map (fun k => "team-" ++ toString (k + 1))

/-- Columns added by `add_location_features` for each slot and side. -/
def locationFeatureColumns (delays : Nat) : List String :=
  (List.range delays).flatMap (fun s =>
    (["start", "end"].flatMap (fun side =>
      [side ++ "_x_norm-" ++ toString s, side ++ "_y_norm-" ++ toString s,
       side ++ "_distance_to_goal-" ++ toString s,
       side ++ "_angle_to_goal-" ++ toString s]))
    ++ ["diff_x-" ++ toString s, "diff_y-" ++ toString s,
        "distance_covered-" ++ toString s])

/-- Columns added by `add_sequence_pre_features` and
`add_sequence_post_features`. -/
def sequenceColumns : List String :=
  ["xdiff_sequence_pre", "ydiff_sequence_pre", "time_sequence_pre",
   "xdiff_sequence_post", "ydiff_sequence_post"]

/-- The columns of the table returned by `create_features_match`:
`create_delayed_features` builds a fresh frame from the shifted
`features_to_delay` columns only (the `get_dummies` columns merged into
`df_action_features` are not in `features_to_delay`, hence dropped), and the
subsequent steps add the team, location and sequence columns. -/
def create_features_match_columns (delays : Nat) : List String :=
  delayedFeatureColumns delays ++ teamColumns delays
    ++ locationFeatureColumns delays ++ sequenceColumns

/-! ## Label generation (`label_scores` / `label_concedes`, notebook) -/

/-- The `goals` column: `df_actions['type_name'].str.contains('shot') &
(df_actions['result_id'] == 1)`. -/
def isGoalAct (a : Action) : Bool :=
  decide ("shot".toList <:+: a.type_name.toList) && (a.result_id == 1)

/-- The `owngoals` column: `df_actions['type_name'].str.contains('shot') &
(df_actions['result_id'] == 2)`. -/
def isOwnGoalAct (a : Action) : Bool :=
  decide ("shot".toList <:+: a.type_name.toList) && (a.result_id == 2)

/-- The forward shift-and-fill of the label functions:
`shifted = y[col].shift(-i); shifted[-i:] = y[col][len(y) - 1]` reads, at
row `p`, the value at row `p + i` when it exists and the LAST row's value
otherwise — i.e. the value at index `min (p + i) (length - 1)`. -/
def fillShiftGet (acts : List Action) (j : Nat) : Action :=
  acts.getD (min j (acts.length - 1)) default

/-- `label_scores(df_actions, nr_actions)` at row `p`: `scores = y['goal']`,
then OR over `i = 1 .. nr_actions-1` of
`goal+i & (team_id+i == team_id)` and `owngoal+i & (team_id+i != team_id)`. -/
def label_scores (acts : List Action) (nr_actions : Nat) (p : Nat) : Bool :=
  isGoalAct (acts.getD p default) ||
    (List.range (nr_actions - 1)).any (fun k =>
      (isGoalAct (fillShiftGet acts (p + k + 1)) &&
        ((fillShiftGet acts (p + k + 1)).team_id == (acts.getD p default).team_id)) ||
      (isOwnGoalAct (fillShiftGet acts (p + k + 1)) &&
        !((fillShiftGet acts (p + k + 1)).team_id == (acts.getD p default).team_id)))

/-- `label_concedes(df_actions, nr_actions)` at row `p`: `concedes = y['owngoal']`,
then OR over `i = 1 .. nr_actions-1` of
`goal+i & (team_id+i != team_id)` and `owngoal+i & (team_id+i == team_id)`. -/
def label_concedes (acts : List Action) (nr_actions : Nat) (p : Nat) : Bool :=
  isOwnGoalAct (acts.getD p default) ||
    (List.range (nr_actions - 1)).any (fun k =>
      (isGoalAct (fillShiftGet acts (p + k + 1)) &&
        !((fillShiftGet acts (p + k + 1)).team_id == (acts.getD p default).team_id)) ||
      (isOwnGoalAct (fillShiftGet acts (p + k + 1)) &&
        ((fillShiftGet acts (p + k + 1)).team_id == (acts.getD p default).team_id)))

/-- Modelled from the spec's words, for comparison with `label_scores`:
"scores[i] = true if, within actions i..i+H-1 inclusive (clipped to the
match), any shot-type action with a goal-scoring result belongs to the team
of action i, OR any shot-type action with an own-goal result belongs to a
team other than that of action i." -/
def specScores (acts : List Action) (H p : Nat) : Bool :=
  (List.range H).any (fun k =>
    match acts[p + k]? with
    | some b =>
        (isGoalAct b && (b.team_id == (acts.getD p default).team_id)) ||
        (isOwnGoalAct b && !(b.team_id == (acts.getD p default).team_id))
    | none => false)

/-- Modelled from the spec's words, for comparison with `label_concedes`:
the mirrored condition (own-goal by the team of action i, or goal-scoring
shot by another team, within the clipped horizon). -/
def specConcedes (acts : List Action) (H p : Nat) : Bool :=
  (List.range H).any (fun k =>
    match acts[p + k]? with
    | some b =>
        (isGoalAct b && !(b.team_id == (acts.getD p default).team_id)) ||
        (isOwnGoalAct b && (b.team_id == (acts.getD p default).team_id))
    | none => false)

/-! ## Concrete actions used as evaluation inputs -/

/-- A plain successful pass by team `10`, used as a base row. -/
def baseAction : Action :=
  { game_id := 1, period_id := 1, time_seconds := 0, team_id := 10, player_id := 100,
    start_x := 50, start_y := 30, end_x := 60, end_y := 32, bodypart_id := 0,
    type_id := 0, result_id := 1, type_name := "pass", result_name := "success",
    bodypart_name := "foot" }

/-- Pass by team `10` (the spec's synthetic three-action match, action 0). -/
def passA : Action := baseAction

/-- Pass by team `20` (the spec's synthetic three-action match, action 1). -/
def passB : Action := { baseAction with team_id := 20, time_seconds := 5 }

/-- Shot with an own-goal result by team `10` (the spec's synthetic
three-action match, action 2). -/
def ownGoalShotA : Action :=
  { baseAction with time_seconds := 9, type_name := "shot", type_id := 11, result_id := 2 }

/-- Shot with a goal-scoring result by team `10`. -/
def goalShotA : Action :=
  { baseAction with time_seconds := 12, type_name := "shot", type_id := 11, result_id := 1 }

/-- The spec's synthetic three-action match: pass by team A, pass by team B,
shot with an own-goal result by team A. -/
def acts3 : List Action := [passA, passB, ownGoalShotA]

/-- A period-1 action at exactly 45:00 of in-period elapsed time (first-half
stoppage time reaches this value in real data). -/
def p1Late : Action := { baseAction with time_seconds := 2700 }

/-- A period-2 action at in-period elapsed time 0. -/
def p2Start : Action := { baseAction with period_id := 2, time_seconds := 0 }

/-- A period-1 action at in-period elapsed time 100. -/
def p1Early : Action := { baseAction with time_seconds := 100 }

/-- A period-3 action, for evaluating the extra-time offset. -/
def p3Action : Action := { baseAction with period_id := 3, time_seconds := 30 }

/-! ## Shared helper lemmas -/

/-- A comparison whose right-hand side is missing is `false`, whatever stands
on the left (pandas `== NaN` semantics). -/
lemma sameTeamSlot_none (x : Option Action) : sameTeamSlot x none = false := by
  cases x <;> rfl

/-- Indexing a mapped range below its length evaluates the function. -/
lemma range_map_getD {β : Type} (n : Nat) (f : Nat → β) (d : β) (i : Nat) (h : i < n) :
    ((List.range n).map f).getD i d = f i := by
  rw [List.getD_eq_getElem?_getD, List.getElem?_map]
  simp [List.getElem?_range, h]

/-- `getD` with any default returns the element when the index is in range. -/
lemma getD_of_getElem? {β : Type} [Inhabited β] (l : List β) (i : Nat) (b : β)
    (h : l[i]? = some b) : l.getD i default = b := by
  rw [List.getD_eq_getElem?_getD, h]; rfl

/-! ## Theorems for the claims -/

/-- C4: for every slot coordinate pair, the angle-to-goal feature equals
`(GOAL_X - x) / |GOAL_Y - y|` when the vertical offset `|GOAL_Y - y|` is
nonzero and equals `0` when that offset is exactly zero.  The output lives in
`Rat`, a total arithmetic carrier: the guarded definition never divides by
zero, so no `NaN`/`∞` value exists for any input. -/
theorem angle_to_goal_zero_guard (x y : Rat) :
    (|GOAL_Y - y| ≠ 0 → angle_to_goal x y = (GOAL_X - x) / |GOAL_Y - y|) ∧
    (|GOAL_Y - y| = 0 → angle_to_goal x y = 0) := by
  constructor <;> intro h <;> simp [angle_to_goal, h]

/-- Witness for C4: at `y = 34` the vertical offset is zero and the angle is
`0`; at `y = 0` it is nonzero and the angle is the true quotient. -/
theorem angle_to_goal_zero_guard_witness :
    angle_to_goal 0 34 = 0 ∧ angle_to_goal 105 0 = (GOAL_X - 105) / |GOAL_Y - 0| :=
  ⟨(angle_to_goal_zero_guard 0 34).2 (by norm_num [GOAL_Y, PITCH_WIDTH]),
   (angle_to_goal_zero_guard 105 0).1 (by norm_num [GOAL_Y, PITCH_WIDTH])⟩

/-- C7: the elapsed-match-time feature adds to the in-period seconds an offset
of 0 for period 1, 45·60 s for period 2, (45+15)·60 s for period 3 and
(45+15+15)·60 s for period 4. -/
theorem time_played_period_offsets (a : Action) :
    (a.period_id = 1 → time_played a = a.time_seconds + 0) ∧
    (a.period_id = 2 → time_played a = a.time_seconds + 45 * 60) ∧
    (a.period_id = 3 → time_played a = a.time_seconds + (45 + 15) * 60) ∧
    (a.period_id = 4 → time_played a = a.time_seconds + (45 + 15 + 15) * 60) := by
  refine ⟨fun h => ?_, fun h => ?_, fun h => ?_, fun h => ?_⟩ <;>
    simp [time_played, h] <;> ring

/-- Witness for C7: a period-3 action at 30 in-period seconds has elapsed
match time `30 + 3600`. -/
theorem time_played_period_offsets_witness :
    time_played p3Action = p3Action.time_seconds + (45 + 15) * 60 :=
  (time_played_period_offsets p3Action).2.2.1 rfl

/-- C8 counterexample: a period-1 action at in-period second `2700` (45:00,
reached in first-half stoppage time) has elapsed match time `2700`, exactly
the elapsed match time of a period-2 action at in-period second `0` — not
strictly smaller, refuting the claim that the period-2 action's elapsed time
strictly exceeds that of EVERY period-1 action of the match. -/
theorem time_played_not_strictly_monotonic :
    ¬ (time_played p1Late < time_played p2Start) := by
  norm_num [time_played, p1Late, p2Start, baseAction]

/-- C8 amended: an action in period 2 at in-period second 0 has strictly
greater elapsed match time than every action in period 1 whose in-period
elapsed seconds are below 45 minutes. -/
theorem time_played_period2_gt (a b : Action) (ha : a.period_id = 1)
    (hb : b.period_id = 2) (hb0 : b.time_seconds = 0)
    (hlt : a.time_seconds < 45 * 60) :
    time_played a < time_played b := by
  simp only [time_played, ha, hb, hb0]
  norm_num
  linarith

/-- Witness for the amended C8: a period-1 action at second 100 against the
period-2 action at second 0. -/
theorem time_played_period2_gt_witness :
    time_played p1Early < time_played p2Start :=
  time_played_period2_gt p1Early p2Start rfl rfl rfl (by norm_num [p1Early, baseAction])

/-- C3: after coordinate normalization of a window row, a present slot
`s ≥ 1` whose team differs from slot 0's team has each start/end coordinate
replaced by `PITCH_LENGTH - x` / `PITCH_WIDTH - y` exactly; a present slot
with the same team is unchanged; slot 0 is never changed. -/
theorem invert_coordinates_spec (a0 b : Action) (rest : List (Option Action)) (s : Nat)
    (hs : rest[s]? = some (some b)) :
    (b.team_id ≠ a0.team_id →
      (invert_coordinates (some a0 :: rest))[s + 1]? =
        some (some { b with
          start_x := PITCH_LENGTH - b.start_x
          start_y := PITCH_WIDTH - b.start_y
          end_x := PITCH_LENGTH - b.end_x
          end_y := PITCH_WIDTH - b.end_y })) ∧
    (b.team_id = a0.team_id →
      (invert_coordinates (some a0 :: rest))[s + 1]? = some (some b)) ∧
    (invert_coordinates (some a0 :: rest))[0]? = some (some a0) := by
  refine ⟨fun h => ?_, fun h => ?_, by simp [invert_coordinates]⟩
  · have hne : (a0.team_id == b.team_id) = false := beq_eq_false_iff_ne.2 (Ne.symm h)
    simp [invert_coordinates, List.getElem?_cons_succ, List.getElem?_map, hs,
      sameTeamSlot, hne, flipCoordinates]
  · have heq : (a0.team_id == b.team_id) = true := beq_iff_eq.2 h.symm
    simp [invert_coordinates, List.getElem?_cons_succ, List.getElem?_map, hs,
      sameTeamSlot, heq]

/-- Witness for C3: in the window `[passA, passB]` the slot-1 action belongs
to the other team and comes out exactly flipped. -/
theorem invert_coordinates_spec_witness :
    (invert_coordinates [some passA, some passB])[1]? =
      some (some { passB with
        start_x := PITCH_LENGTH - passB.start_x
        start_y := PITCH_WIDTH - passB.start_y
        end_x := PITCH_LENGTH - passB.end_x
        end_y := PITCH_WIDTH - passB.end_y }) :=
  (invert_coordinates_spec passA passB [some passB] 0 rfl).1 (by decide)

/-- C9: a slot that is the missing sentinel before coordinate normalization is
still the missing sentinel afterwards (in pandas, `PITCH_LENGTH - NaN` is
`NaN`; here `Option.map` keeps `none`). -/
theorem invert_coordinates_missing (slot0 : Option Action) (rest : List (Option Action))
    (s : Nat) (hs : rest[s]? = some none) :
    (invert_coordinates (slot0 :: rest))[s + 1]? = some none := by
  simp [invert_coordinates, List.getElem?_cons_succ, List.getElem?_map, hs, sameTeamSlot_none]

/-- Witness for C9: the missing slot 1 of a two-slot window stays missing. -/
theorem invert_coordinates_missing_witness :
    (invert_coordinates [some passA, none])[1]? = some none :=
  invert_coordinates_missing (some passA) [none] 0 rfl

/-- C10: for a window slot `s` with `1 ≤ s < K` and `i < s` (the slot refers
before the start of the table and is missing), the `team-s` indicator computed
by `add_same_team` is `false`: a missing slot is classified as belonging to a
different team than the anchor, so `invert_coordinates` routes it through the
coordinate-inversion branch instead of giving it a separate missing value. -/
theorem missing_slot_team_indicator_false (acts : List Action) (K i s : Nat)
    (_hi : i < acts.length) (_h1 : 1 ≤ s) (_hK : s < K) (hs : i < s) :
    delayedSlot acts i s = none ∧
    sameTeamSlot (delayedSlot acts i 0) (delayedSlot acts i s) = false := by
  have hns : ¬ s ≤ i := Nat.not_le.2 hs
  refine ⟨by simp [delayedSlot, hns], ?_⟩
  rw [show delayedSlot acts i s = none from by simp [delayedSlot, hns]]
  exact sameTeamSlot_none _

/-- Witness for C10: row 0 of the synthetic match with `K = 3`, slot 1. -/
theorem missing_slot_team_indicator_false_witness :
    delayedSlot acts3 0 1 = none ∧
    sameTeamSlot (delayedSlot acts3 0 0) (delayedSlot acts3 0 1) = false :=
  missing_slot_team_indicator_false acts3 3 0 1 (by decide) (by decide) (by decide)
    (by decide)

/-- C6 counterexample: for the concrete one-action match `[passA]` (whose only
action type is `pass`) and the notebook's window size 3, the table returned by
`create_features_match` has NO action-type indicator column at all — neither
`pass` nor `cross` is among its columns (the `get_dummies` columns are dropped
because they are not in `features_to_delay`), and the dummy encoding itself
only creates columns for observed values (`dummyColumns [passA] = ["pass"]`),
refuting the claim that the output carries an indicator column for every value
of the closed action-type enumeration independently of the data. -/
theorem no_action_type_dummies_in_pipeline_columns :
    "pass" ∉ create_features_match_columns 3 ∧
    "cross" ∉ create_features_match_columns 3 ∧
    dummyColumns [passA] = ["pass"] := by decide

/-- C6 amended: the dummy-encoding step creates one indicator column per
action-type value observed in the input table (and only those), named by that
value, whose entry at a row is `1` exactly when that row's action has that
type; the pipeline `create_features_match` then drops these columns (they are
not in `features_to_delay`), so its output table carries no action-type
indicator column such as `pass`. -/
theorem action_type_dummies_observed_one_hot (acts : List Action) (a : Action) (v : String)
    (ha : a ∈ acts) (hv : v ∈ dummyColumns acts) :
    a.type_name ∈ dummyColumns acts ∧
    v ∈ acts.map Action.type_name ∧
    (dummyValue a v = true ↔ a.type_name = v) ∧
    "pass" ∉ create_features_match_columns 3 := by
  refine ⟨List.mem_dedup.2 (List.mem_map_of_mem _ ha), List.mem_dedup.1 hv, ?_, by decide⟩
  simp [dummyValue]

/-- Witness for the amended C6: the two-action match `[passA, ownGoalShotA]`
observes the type `pass`, gets a `pass` dummy column, and `passA`'s entry in
it is `1`. -/
theorem action_type_dummies_observed_one_hot_witness :
    passA.type_name ∈ dummyColumns [passA, ownGoalShotA] ∧
    (dummyValue passA "pass" = true ↔ passA.type_name = "pass") :=
  ⟨(action_type_dummies_observed_one_hot [passA, ownGoalShotA] passA "pass"
      (List.mem_cons_self _ _) (by decide)).1,
   (action_type_dummies_observed_one_hot [passA, ownGoalShotA] passA "pass"
      (List.mem_cons_self _ _) (by decide)).2.2.1⟩

/-- C5: the windowing output has one row per action; slot 0 of row `i` is the
action at `i` unchanged; slot `s` (for `1 ≤ s ≤ K-1`) is the action at
`i - s` when `i - s ≥ 0`, and the missing sentinel when the slot would refer
before the start of the table — no wrapping, no error. -/
theorem create_delayed_features_windows (acts : List Action) (K : Nat) (hK : 1 ≤ K) :
    (create_delayed_features acts K).length = acts.length ∧
    ∀ i, (hi : i < acts.length) →
      ((create_delayed_features acts K).getD i []).getD 0 none =
        some (acts.get ⟨i, hi⟩) ∧
      ∀ s, 1 ≤ s → s ≤ K - 1 →
        ((s ≤ i →
          ((create_delayed_features acts K).getD i []).getD s none =
            some (acts.get ⟨i - s, Nat.lt_of_le_of_lt (Nat.sub_le i s) hi⟩)) ∧
         (i < s →
          ((create_delayed_features acts K).getD i []).getD s none = none)) := by
  constructor
  · simp [create_delayed_features]
  · intro i hi
    have hrow : (create_delayed_features acts K).getD i [] =
        (List.range K).map (delayedSlot acts i) := by
      unfold create_delayed_features
      exact range_map_getD _ _ _ _ hi
    constructor
    · rw [hrow, range_map_getD _ _ _ _ (Nat.lt_of_lt_of_le Nat.zero_lt_one hK)]
      simp [delayedSlot, List.getElem?_eq_getElem hi]
    · intro s hs1 hs2
      have hsK : s < K := by omega
      rw [hrow, range_map_getD _ _ _ _ hsK]
      constructor
      · intro hsi
        have hlt : i - s < acts.length := Nat.lt_of_le_of_lt (Nat.sub_le i s) hi
        simp [delayedSlot, hsi, List.getElem?_eq_getElem hlt]
      · intro his
        simp [delayedSlot, Nat.not_le.2 his]

/-- Witness for C5: on the synthetic three-action match with `K = 3`, row 2
slot 2 is action 0, and row 0 slot 1 is the missing sentinel. -/
theorem create_delayed_features_windows_witness :
    ((create_delayed_features acts3 3).getD 2 []).getD 2 none = some passA ∧
    ((create_delayed_features acts3 3).getD 0 []).getD 1 none = none := by
  have h := create_delayed_features_windows acts3 3 (by decide)
  constructor
  · have h2 := (((h.2 2 (by decide)).2) 2 (by decide) (by decide)).1 (by decide)
    simpa using h2
  · exact (((h.2 0 (by decide)).2) 1 (by decide) (by decide)).2 (by decide)

/-- Central lemma: for any per-action test `r`, the shift-and-fill scan of the
label functions (offset 0 plus filled offsets `1 .. H-1`) agrees with a scan
of the horizon `p .. p+H-1` clipped at the end of the table.  The fill value
is the last row, which already lies inside the clipped horizon, so the fill
only duplicates an existing disjunct. -/
lemma fill_any_eq_clip (acts : List Action) (H p : Nat) (r : Action → Bool)
    (hH : 1 ≤ H) (hp : p < acts.length) :
    (r (acts.getD p default) ||
      (List.range (H - 1)).any (fun k => r (fillShiftGet acts (p + k + 1)))) =
    (List.range H).any (fun k =>
      match acts[p + k]? with
      | some b => r b
      | none => false) := by
  rw [Bool.eq_iff_iff]
  simp only [Bool.or_eq_true, List.any_eq_true, List.mem_range]
  constructor
  · rintro (h0 | ⟨k, hk, hrk⟩)
    · refine ⟨0, hH, ?_⟩
      rw [Nat.add_zero, List.getElem?_eq_getElem hp]
      rw [getD_of_getElem? acts p _ (List.getElem?_eq_getElem hp)] at h0
      exact h0
    · have hn0 : 0 < acts.length := Nat.lt_of_le_of_lt (Nat.zero_le p) hp
      have hmn : min (p + k + 1) (acts.length - 1) < acts.length := by omega
      refine ⟨min (p + k + 1) (acts.length - 1) - p, by omega, ?_⟩
      rw [show p + (min (p + k + 1) (acts.length - 1) - p) =
            min (p + k + 1) (acts.length - 1) by omega,
        List.getElem?_eq_getElem hmn]
      have hfill : fillShiftGet acts (p + k + 1) = acts[min (p + k + 1) (acts.length - 1)] :=
        getD_of_getElem? acts _ _ (List.getElem?_eq_getElem hmn)
      rw [hfill] at hrk
      exact hrk
  · rintro ⟨k, hkH, hmk⟩
    cases hbk : acts[p + k]? with
    | none => rw [hbk] at hmk; exact Bool.noConfusion hmk
    | some b =>
      rw [hbk] at hmk
      have hpk : p + k < acts.length := (List.getElem?_eq_some.1 hbk).1
      cases k with
      | zero =>
        left
        rw [getD_of_getElem? acts p _ (by simpa using hbk)]
        exact hmk
      | succ q =>
        right
        refine ⟨q, by omega, ?_⟩
        have hfill : fillShiftGet acts (p + q + 1) = b := by
          unfold fillShiftGet
          rw [show min (p + q + 1) (acts.length - 1) = p + q + 1 by omega]
          exact getD_of_getElem? acts _ _ hbk
        rw [hfill]
        exact hmk

/-- `label_scores` agrees with the spec's clipped-horizon description. -/
lemma label_scores_eq_spec (acts : List Action) (H p : Nat)
    (hH : 1 ≤ H) (hp : p < acts.length) :
    label_scores acts H p = specScores acts H p := by
  have key := fill_any_eq_clip acts H p
    (fun b => (isGoalAct b && (b.team_id == (acts.getD p default).team_id)) ||
      (isOwnGoalAct b && !(b.team_id == (acts.getD p default).team_id))) hH hp
  have ha : ((isGoalAct (acts.getD p default) &&
        ((acts.getD p default).team_id == (acts.getD p default).team_id)) ||
      (isOwnGoalAct (acts.getD p default) &&
        !((acts.getD p default).team_id == (acts.getD p default).team_id))) =
      isGoalAct (acts.getD p default) := by
    simp
  unfold label_scores specScores
  rw [← ha]
  exact key

/-- `label_concedes` agrees with the spec's clipped-horizon description. -/
lemma label_concedes_eq_spec (acts : List Action) (H p : Nat)
    (hH : 1 ≤ H) (hp : p < acts.length) :
    label_concedes acts H p = specConcedes acts H p := by
  have key := fill_any_eq_clip acts H p
    (fun b => (isGoalAct b && !(b.team_id == (acts.getD p default).team_id)) ||
      (isOwnGoalAct b && (b.team_id == (acts.getD p default).team_id))) hH hp
  have ha : ((isGoalAct (acts.getD p default) &&
        !((acts.getD p default).team_id == (acts.getD p default).team_id)) ||
      (isOwnGoalAct (acts.getD p default) &&
        ((acts.getD p default).team_id == (acts.getD p default).team_id))) =
      isOwnGoalAct (acts.getD p default) := by
    simp
  unfold label_concedes specConcedes
  rw [← ha]
  exact key

/-- C2: for every single-match table, horizon `H ≥ 1` and action index `p`,
`label_scores` is true exactly when some action in the clipped horizon
`p .. p+H-1` is a shot-type action with a goal-scoring result by the team of
action `p`, or one with an own-goal result by another team; `label_concedes`
is true exactly under the mirrored condition (`specScores`/`specConcedes` are
written from the spec's words). -/
theorem labels_equal_spec (acts : List Action) (H p : Nat)
    (hH : 1 ≤ H) (hp : p < acts.length) :
    label_scores acts H p = specScores acts H p ∧
    label_concedes acts H p = specConcedes acts H p :=
  ⟨label_scores_eq_spec acts H p hH hp, label_concedes_eq_spec acts H p hH hp⟩

/-- Witness for C2: the spec's synthetic three-action match with `H = 3`,
evaluated at every row. -/
theorem labels_equal_spec_witness :
    label_scores acts3 3 0 = specScores acts3 3 0 ∧
    label_concedes acts3 3 0 = specConcedes acts3 3 0 :=
  labels_equal_spec acts3 3 0 (by decide) (by decide)

/-- C1: for every nonempty single-match table and horizon `H ≥ 1`, the label
pair computed at the final action equals the labels obtained from a horizon
containing only that action itself (the singleton table): `scores` is true iff
the final action is a shot-type action with a goal-scoring result, `concedes`
iff it is a shot-type action with an own-goal result.  Every filled offset
reads the last row again, so the last-row fill never changes the final
action's label relative to per-match truncation. -/
theorem labels_last_action (acts : List Action) (H : Nat)
    (_hH : 1 ≤ H) (hne : acts ≠ []) :
    label_scores acts H (acts.length - 1) = isGoalAct (acts.getLast hne) ∧
    label_concedes acts H (acts.length - 1) = isOwnGoalAct (acts.getLast hne) ∧
    label_scores acts H (acts.length - 1) = label_scores [acts.getLast hne] H 0 ∧
    label_concedes acts H (acts.length - 1) = label_concedes [acts.getLast hne] H 0 := by
  have hn0 : 0 < acts.length := List.length_pos.2 hne
  have hlast : acts.getD (acts.length - 1) default = acts.getLast hne := by
    rw [List.getLast_eq_getElem]
    exact getD_of_getElem? acts _ _ (List.getElem?_eq_getElem (by omega))
  have hfill : ∀ k : Nat, fillShiftGet acts (acts.length - 1 + k + 1) = acts.getLast hne := by
    intro k
    unfold fillShiftGet
    rw [show min (acts.length - 1 + k + 1) (acts.length - 1) = acts.length - 1 by omega]
    exact hlast
  have hone : ∀ k : Nat, fillShiftGet [acts.getLast hne] (0 + k + 1) = acts.getLast hne := by
    intro k
    unfold fillShiftGet
    simp
  have e1 : label_scores acts H (acts.length - 1) = isGoalAct (acts.getLast hne) := by
    unfold label_scores
    simp only [hfill, hlast]
    cases hg : isGoalAct (acts.getLast hne) <;> simp [hg]
  have e2 : label_concedes acts H (acts.length - 1) = isOwnGoalAct (acts.getLast hne) := by
    unfold label_concedes
    simp only [hfill, hlast]
    cases hg : isOwnGoalAct (acts.getLast hne) <;> simp [hg]
  have e3 : label_scores [acts.getLast hne] H 0 = isGoalAct (acts.getLast hne) := by
    unfold label_scores
    simp only [hone, List.getD_cons_zero]
    cases hg : isGoalAct (acts.getLast hne) <;> simp [hg]
  have e4 : label_concedes [acts.getLast hne] H 0 = isOwnGoalAct (acts.getLast hne) := by
    unfold label_concedes
    simp only [hone, List.getD_cons_zero]
    cases hg : isOwnGoalAct (acts.getLast hne) <;> simp [hg]
  exact ⟨e1, e2, e1.trans e3.symm, e2.trans e4.symm⟩

/-- Witness for C1: the final action of the synthetic three-action match is
the own-goal shot, so at `H = 10` its `scores` label is its goal flag and its
`concedes` label is its own-goal flag. -/
theorem labels_last_action_witness :
    label_scores acts3 10 (acts3.length - 1) = isGoalAct (acts3.getLast (by decide)) ∧
    label_concedes acts3 10 (acts3.length - 1) = isOwnGoalAct (acts3.getLast (by decide)) :=
  ⟨(labels_last_action acts3 10 (by decide) (by decide)).1,
   (labels_last_action acts3 10 (by decide) (by decide)).2.1⟩

end FVA
